import Mathlib

/-!
Shallow embedding of `src/helpers/whisperServer.js` (class `WhisperServerManager`)
for verifying the specification's claims about the whisper-server supervisor.

The JavaScript class is single-threaded (event-loop) and stateful; it is embedded
as explicit state passing over `ManagerState`.  Interaction with the outside world
(filesystem lookups for binaries and the model file, TCP port probing, child
process spawning, readiness probing) is abstracted into an environment record
`StartEnv` whose fields stand for the outcomes of those external operations;
everything the class itself computes is translated from the source.
-/

namespace WhisperServer

/-! ### Constants (whisperServer.js lines 10-14) -/

def PORT_RANGE_START : Nat := 8178
def PORT_RANGE_END : Nat := 8199
def STARTUP_TIMEOUT_MS : Nat := 30000
def HEALTH_CHECK_INTERVAL_MS : Nat := 5000
def HEALTH_CHECK_TIMEOUT_MS : Nat := 2000

/-! ### Mutable instance state (constructor, lines 17-30)

`process` is the child-process handle (`this.process`), represented by an opaque
numeric handle id; `startupPromise` is the in-flight start operation
(`this.startupPromise`), represented by the id of the operation it resolves to;
`healthCheckInterval` records whether the periodic health timer is armed.
The binary/ffmpeg path caches are part of the environment abstraction
(they only memoize filesystem lookups) and are not claim-relevant state. -/

structure ManagerState where
  process : Option Nat := none
  port : Option Nat := none
  ready : Bool := false
  modelPath : Option String := none
  startupPromise : Option Nat := none
  healthCheckInterval : Bool := false
  canConvert : Bool := false
  usingCuda : Bool := false
deriving DecidableEq

/-- The state built by the constructor (lines 17-30): everything empty/false. -/
def initialState : ManagerState := {}

/-! ### Environment: outcomes of the external operations used during start -/

/-- Outcome of the readiness-polling loop `waitForReady` (lines 375-407), which
depends on real time and the network: either some probe to `GET /` succeeded
within the 30s startup timeout, or the child was observed dead
(`!this.process || this.process.killed`) on a poll, or the 30s deadline elapsed
with the child still alive and no probe ever succeeding. -/
inductive ReadyOutcome
  | ok
  | died (stderr : String) (exitCode : Option Int)
  | timeout
deriving DecidableEq

/-- External-world inputs of a `start` call.
`cudaBinary` / `cpuBinary` are the results of `getServerBinaryPath(true)` /
`getServerBinaryPath(false)` (lines 122-184, pure filesystem lookups);
`ffmpegPath` is the result of `getFFmpegPath()` (lines 32-120);
`modelExists` is `fs.existsSync` on a model path (line 296);
`portAvail` is `isPortAvailable` (lines 242-252: bind a transient listener on
127.0.0.1, release it immediately, report success);
`cudaDetect` is `checkCudaAvailable()` (lines 191-214). -/
structure StartEnv where
  cudaBinary : Option String
  cpuBinary : Option String
  ffmpegPath : Option String
  modelExists : String → Bool
  portAvail : Nat → Bool
  readyOutcome : ReadyOutcome
  cudaDetect : Bool

/-- External-world inputs of a `stop` call (lines 584-623).  Whether the child
exits within the 5s grace period (`gracefulExit`) or has to be SIGKILLed, and
whether `killProcess` itself throws (`killError`, swallowed by the
`catch` at lines 615-617), do not change the state `stop` leaves behind:
lines 619-622 run unconditionally after the try/catch. -/
structure StopEnv where
  gracefulExit : Bool
  killError : Bool

/-! ### Call options -/

/-- Model of `options` of `start(modelPath, options)`.  `useCuda` models
`options.useCuda ?? false` (line 257); `threads` and `language` feed the spawn
arguments (lines 322-325) under JavaScript truthiness (`0`, `""` are falsy). -/
structure StartOptions where
  useCuda : Option Bool := none
  threads : Option Nat := none
  language : Option String := none
deriving DecidableEq

/-- Model of `options` of `transcribe(audioBuffer, options)` (line 472). -/
structure TranscribeOptions where
  language : Option String := none
  initialPrompt : Option String := none
deriving DecidableEq

/-! ### Port allocation (lines 235-252) -/

/-- The loop body of `findAvailablePort` (lines 236-238): try `port`, then
`port+1`, ..., for `fuel` candidates.  `fuel` counts the remaining candidates of
the fixed range, so the recursion is structural. -/
def findPortFrom (avail : Nat → Bool) (port : Nat) : Nat → Except String Nat
  | 0 => .error "No available ports in range 8178-8199"
  | fuel + 1 => if avail port then .ok port else findPortFrom avail (port + 1) fuel

/-- Model of `findAvailablePort` (lines 235-240): scan ports `PORT_RANGE_START` to
`PORT_RANGE_END` inclusive, in ascending order, returning the first available
one; throw `No available ports in range 8178-8199` when the range is exhausted. -/
def findAvailablePort (avail : Nat → Bool) : Except String Nat :=
  findPortFrom avail PORT_RANGE_START (PORT_RANGE_END + 1 - PORT_RANGE_START)

/-! ### Binary resolution inside `_doStart` (lines 277-292) -/

/-- Lines 277-292: if CUDA was requested try the CUDA binary and record that
CUDA is actually used; on failure fall back to the CPU binary; without a CUDA
request resolve the CPU binary directly.  Returns the resolved binary (if any)
and `actuallyUsingCuda`. -/
def resolveBinary (env : StartEnv) (useCuda : Bool) : Option String × Bool :=
  if useCuda then
    match env.cudaBinary with
    | some b => (some b, true)
    | none => (env.cpuBinary, false)
  else (env.cpuBinary, false)

/-! ### Spawn arguments (lines 310-325) -/

/-- The argument vector passed to `spawn` (lines 310-325): base flags, then
`--convert` iff FFmpeg resolved, then `--threads n` if `options.threads` is
truthy, then `--language l` if `options.language` is truthy and not `"auto"`. -/
def buildArgs (modelPath : String) (port : Nat) (hasFFmpeg : Bool)
    (opts : StartOptions) : List String :=
  ["--model", modelPath, "--host", "127.0.0.1", "--port", toString port]
    ++ (if hasFFmpeg then ["--convert"] else [])
    ++ (match opts.threads with
        | some t => if t != 0 then ["--threads", toString t] else []
        | none => [])
    ++ (match opts.language with
        | some l => if l != "" && l != "auto" then ["--language", l] else []
        | none => [])

/-- A `spawn(serverBinary, args, ...)` call (lines 334-339). -/
structure SpawnRecord where
  binary : String
  args : List String
deriving DecidableEq

/-! ### `waitForReady`'s failure message (lines 384-390) -/

/-- The error thrown when the child dies during startup (lines 384-390):
`info.stderr ? info.stderr.trim().slice(0, 200) : ""`, then
`stderr || (info.exitCode !== null ? exit-code-text : "")`. -/
def diedMessage (stderr : String) (exitCode : Option Int) : String :=
  let s := stderr.trim.take 200
  let details :=
    if s != "" then s
    else match exitCode with
      | some c => "exit code: " ++ toString c
      | none => ""
  "whisper-server process died during startup"
    ++ (if details != "" then ": " ++ details else "")

/-! ### `_doStart` (lines 274-373) -/

/-- Result of one `_doStart` run: its thrown error or success, the instance
state it leaves behind, the `spawn` calls it performed, and how many port scans
(`findAvailablePort` invocations) it performed. -/
structure DoStartResult where
  result : Except String Unit
  state : ManagerState
  spawns : List SpawnRecord
  portScans : Nat

/-- Model of `_doStart(modelPath, options)` (lines 274-373), with the external outcomes
taken from `env` and the spawned child given the fresh handle id `handle`.
Source order is preserved: binary resolution (277-294), `this.usingCuda`
assignment (295), model existence check (296), port allocation (298) and
`this.modelPath` (299), FFmpeg lookup and `this.canConvert` (302-320),
argument construction (310-325), spawn (334-339), then `waitForReady` (366)
and, on success, `startHealthCheck` (367).  The child's `close` handler
(358-364) sets `ready := false`, `process := none` and stops the health timer,
which is what the `died` outcome reflects; on `timeout` the child is still
alive, so the state keeps the spawned process. -/
def doStart (env : StartEnv) (st : ManagerState) (handle : Nat)
    (modelPath : String) (opts : StartOptions) : DoStartResult :=
  let useCuda := opts.useCuda.getD false
  let rb := resolveBinary env useCuda
  match rb.1 with
  | none =>
      { result := .error "whisper-server binary not found", state := st,
        spawns := [], portScans := 0 }
  | some serverBinary =>
      let st1 := { st with usingCuda := rb.2 }
      if !env.modelExists modelPath then
        { result := .error ("Model file not found: " ++ modelPath), state := st1,
          spawns := [], portScans := 0 }
      else
        match findAvailablePort env.portAvail with
        | .error e =>
            { result := .error e, state := st1, spawns := [], portScans := 1 }
        | .ok port =>
            let hasFFmpeg := env.ffmpegPath.isSome
            let st2 := { st1 with port := some port, modelPath := some modelPath,
                                  canConvert := hasFFmpeg }
            let args := buildArgs modelPath port hasFFmpeg opts
            let st3 := { st2 with process := some handle }
            let spawned := [{ binary := serverBinary, args := args : SpawnRecord }]
            match env.readyOutcome with
            | .ok =>
                { result := .ok (),
                  state := { st3 with ready := true, healthCheckInterval := true },
                  spawns := spawned, portScans := 1 }
            | .died stderr exitCode =>
                { result := .error (diedMessage stderr exitCode),
                  state := { st3 with ready := false, process := none,
                                      healthCheckInterval := false },
                  spawns := spawned, portScans := 1 }
            | .timeout =>
                { result := .error "whisper-server failed to start within 30000ms",
                  state := st3, spawns := spawned, portScans := 1 }

/-! ### `stop` (lines 584-623) -/

/-- The synchronous prefix of `stop`: `this.stopHealthCheck()` (line 585). -/
def stopBegin (st : ManagerState) : ManagerState :=
  { st with healthCheckInterval := false }

/-- The unconditional tail of `stop` (lines 619-622), reached whenever a
process was owned at entry, on every termination path (graceful close, SIGKILL
after the 5s grace period, or a swallowed `killProcess` error). -/
def stopTail (st : ManagerState) : ManagerState :=
  { st with process := none, ready := false, port := none, modelPath := none }

/-- Model of `stop()` (lines 584-623).  With no owned process it only clears `ready`
(lines 587-590) and returns early — `port` and `modelPath` are left as they
were.  With an owned process, termination signalling happens inside a
try/catch whose errors are logged and swallowed (615-617), and lines 619-622
always reset `process`, `ready`, `port` and `modelPath`; the first component
is therefore always `.ok ()` — `stop` never propagates an error. -/
def stop (senv : StopEnv) (st : ManagerState) : Except String Unit × ManagerState :=
  let st1 := stopBegin st
  match st1.process with
  | none => (.ok (), { st1 with ready := false })
  | some _ =>
      -- `senv.gracefulExit` / `senv.killError` select the termination path;
      -- all paths converge on the unconditional reset of lines 619-622.
      let _ := senv.gracefulExit
      let _ := senv.killError
      (.ok (), stopTail st1)

/-! ### `start` (lines 254-272) -/

/-- The decision taken by `start`'s synchronous entry (lines 254-264):
return the in-flight `startupPromise` (255); the idempotence no-op (260);
or proceed, either after an `await this.stop()` because a process is owned
(262-264) or directly. -/
inductive EntryDecision
  | joined (p : Nat)
  | noop
  | proceedAfterStop
  | proceedDirect
deriving DecidableEq

/-- Lines 254-264 of `start(modelPath, options)`. -/
def start_entry (st : ManagerState) (modelPath : String) (opts : StartOptions) :
    EntryDecision :=
  match st.startupPromise with
  | some p => .joined p
  | none =>
      let useCuda := opts.useCuda.getD false
      if st.ready && st.modelPath == some modelPath && st.usingCuda == useCuda then
        .noop
      else if st.process.isSome then .proceedAfterStop
      else .proceedDirect

/-- Lines 266-271 of `start`: register the operation as `this.startupPromise`
(with id `opId`), run `_doStart`, and clear `this.startupPromise` in the
`finally`.  Returns the final state, `_doStart`'s outcome, its spawns and its
port-scan count. -/
def start_register (env : StartEnv) (st : ManagerState) (opId handle : Nat)
    (modelPath : String) (opts : StartOptions) :
    ManagerState × Except String Unit × List SpawnRecord × Nat :=
  let r := doStart env { st with startupPromise := some opId } handle modelPath opts
  ({ r.state with startupPromise := none }, r.result, r.spawns, r.portScans)

/-- What one `start` call returned: the awaited in-flight operation, the
idempotent no-op, or its own `_doStart` outcome. -/
inductive StartCall
  | joined (p : Nat)
  | noop
  | ran (res : Except String Unit)

/-- Observable effects of one `start` call: its return, the state it leaves,
the spawns and port scans it performed, and how many `stop()` calls it made. -/
structure StartResult where
  call : StartCall
  state : ManagerState
  spawns : List SpawnRecord
  portScans : Nat
  stops : Nat

/-- Model of `start(modelPath, options)` (lines 254-272) as one sequential operation
(no other call interleaved with it). -/
def start (env : StartEnv) (senv : StopEnv) (st : ManagerState) (opId handle : Nat)
    (modelPath : String) (opts : StartOptions) : StartResult :=
  match start_entry st modelPath opts with
  | .joined p => { call := .joined p, state := st, spawns := [], portScans := 0, stops := 0 }
  | .noop => { call := .noop, state := st, spawns := [], portScans := 0, stops := 0 }
  | .proceedDirect =>
      let r := start_register env st opId handle modelPath opts
      { call := .ran r.2.1, state := r.1, spawns := r.2.2.1, portScans := r.2.2.2, stops := 0 }
  | .proceedAfterStop =>
      let stClean := (stop senv st).2
      let r := start_register env stClean opId handle modelPath opts
      { call := .ran r.2.1, state := r.1, spawns := r.2.2.1, portScans := r.2.2.2, stops := 1 }

/-! ### `transcribe` (lines 455-582): the phase before any network I/O -/

/-- The WAV sniff of `transcribe` (lines 476-486): the buffer exists, is at
least 12 bytes long, starts with `RIFF` (0x52 0x49 0x46 0x46) and carries
`WAVE` (0x57 0x41 0x56 0x45) at offsets 8-11.  The buffer is modelled as a
byte list (always non-null, so the JavaScript `audioBuffer &&` guard is the
length test). -/
def isWavBuffer (audio : List Nat) : Bool :=
  decide (12 ≤ audio.length)
    && (audio.getD 0 0 == 0x52) && (audio.getD 1 0 == 0x49)
    && (audio.getD 2 0 == 0x46) && (audio.getD 3 0 == 0x46)
    && (audio.getD 8 0 == 0x57) && (audio.getD 9 0 == 0x41)
    && (audio.getD 10 0 == 0x56) && (audio.getD 11 0 == 0x45)

/-- The multipart request `transcribe` builds (lines 490-527) before sending it
to `POST /inference`: the `file` part's filename and content type, the audio
bytes, the optional `language` and `prompt` fields, and the fixed
`response_format` field. -/
structure InferenceRequest where
  fileName : String
  contentType : String
  audio : List Nat
  languageField : Option String
  promptField : Option String
  responseFormat : String
deriving DecidableEq

/-- The request-construction phase of `transcribe(audioBuffer, options)`
(lines 455-527), everything that happens before the HTTP request is issued:
the running gate (456-458: `!this.ready || !this.process` throws), the WAV
sniff (476-489), filename/content-type choice (490-491), and the multipart
fields — `language` only when truthy and not `"auto"` (501-507), `prompt`
only when truthy (510-517), and `response_format=json` (519-523). -/
def transcribeRequest (st : ManagerState) (audio : List Nat)
    (opts : TranscribeOptions) : Except String InferenceRequest :=
  if !st.ready || !st.process.isSome then
    .error "whisper-server is not running"
  else
    let isWav := isWavBuffer audio
    if !isWav && !st.canConvert then
      .error "FFmpeg not found - whisper-server requires WAV input"
    else
      .ok { fileName := if isWav then "audio.wav" else "audio.webm"
            contentType := if isWav then "audio/wav" else "audio/webm"
            audio := audio
            languageField :=
              match opts.language with
              | some l => if l != "" && l != "auto" then some l else none
              | none => none
            promptField :=
              match opts.initialPrompt with
              | some p => if p != "" then some p else none
              | none => none
            responseFormat := "json" }

/-! ### `getStatus` (lines 625-636) -/

/-- Model of `path.basename` for the forward-slash paths used by the model paths. -/
def basename (p : String) : String := (p.splitOn "/").getLastD p

/-- Model of `path.basename(p, ".bin")`: the basename with a trailing `.bin` removed. -/
def basenameNoBin (p : String) : String :=
  let b := basename p
  if b.endsWith ".bin" then b.dropRight 4 else b

/-- JavaScript `String.prototype.replace` with a string pattern: replace the
first occurrence only. -/
def replaceFirst (s pat repl : String) : String :=
  match s.splitOn pat with
  | [] => s
  | [x] => x
  | x :: y :: rest => x ++ repl ++ String.intercalate pat (y :: rest)

/-- The record returned by `getStatus()` (lines 625-636). -/
structure Status where
  available : Bool
  running : Bool
  port : Option Nat
  modelPath : Option String
  modelName : Option String
  usingCuda : Bool
  cudaAvailable : Bool
  cudaBinaryAvailable : Bool
deriving DecidableEq

/-- Model of `getStatus()` (lines 625-636).  `running` is
`this.ready && this.process !== null`; `modelName` strips the directory, a
`.bin` extension and a `ggml-` prefix from `modelPath`; the availability
fields delegate to the binary locator and CUDA prober, i.e. to `env`. -/
def getStatus (env : StartEnv) (st : ManagerState) : Status :=
  { available := env.cpuBinary.isSome
    running := st.ready && st.process.isSome
    port := st.port
    modelPath := st.modelPath
    modelName := st.modelPath.map fun p => replaceFirst (basenameNoBin p) "ggml-" ""
    usingCuda := st.usingCuda
    cudaAvailable := env.cudaDetect
    cudaBinaryAvailable := env.cudaBinary.isSome }

/-! ### Operation-level transition system

Callbacks that fire between operations: the child's `close` handler
(lines 358-364) and the periodic health-check tick (lines 436-445). -/

inductive Event
  | startEv (env : StartEnv) (senv : StopEnv) (opId handle : Nat)
      (modelPath : String) (opts : StartOptions)
  | stopEv (senv : StopEnv)
  | closeEv
  | healthFailEv
  | healthOkEv

/-- One operation or callback applied to the instance state.
`closeEv` is the `close` handler (358-364): `ready := false`,
`process := null`, `stopHealthCheck()` — it fires only while a process exists.
`healthFailEv`/`healthOkEv` are one tick of the interval started by
`startHealthCheck` (436-445): with no process the tick only disarms the timer;
otherwise a failed probe clears `ready` and a successful one changes nothing. -/
def step (st : ManagerState) : Event → ManagerState
  | .startEv env senv opId handle m o => (start env senv st opId handle m o).state
  | .stopEv senv => (stop senv st).2
  | .closeEv =>
      if st.process.isSome then
        { st with ready := false, process := none, healthCheckInterval := false }
      else st
  | .healthFailEv =>
      if st.healthCheckInterval then
        if st.process.isSome then { st with ready := false }
        else { st with healthCheckInterval := false }
      else st
  | .healthOkEv =>
      if st.healthCheckInterval && !st.process.isSome then
        { st with healthCheckInterval := false }
      else st

/-- Run a sequence of operations/callbacks from a state. -/
def run (st : ManagerState) : List Event → ManagerState
  | [] => st
  | e :: es => run (step st e) es

/-! ### The spec's state names (spec sections 3 and 4.4)

The code keeps no explicit state enum; the spec's states map onto the fields:
an in-flight `startupPromise` is `Starting`; no owned process is `Stopped`;
an owned process with `ready` true is `Ready`; an owned process with `ready`
false (a health probe failed, lines 441-444) is `Degraded`.  `Stopping` is
transient inside `stop` and not observable between operations. -/
inductive SpecState
  | Stopped | Starting | Ready | Degraded | Stopping
deriving DecidableEq

def specState (st : ManagerState) : SpecState :=
  if st.startupPromise.isSome then .Starting
  else if !st.process.isSome then .Stopped
  else if st.ready then .Ready
  else .Degraded

/-! ### Two `start` calls racing through the `await this.stop()` window

`start` checks `this.startupPromise` at entry (line 255) but only assigns it
at line 266, after `await this.stop()` (line 263) has completed.  A second
`start` call issued while the first is suspended in that `await` therefore
also sees `startupPromise === null` and proceeds.  The event-loop order of the
scenario is: A enters and begins `stop` (its synchronous prefix
`stopHealthCheck`, line 585, runs; A suspends awaiting the old child's close);
B enters on that state and also begins `stop`; the old child closes, both
`stop` tails (lines 619-622) run; A resumes, registers its `_doStart` as
`startupPromise` and runs it; B resumes and, its entry check long past, also
registers and runs its own `_doStart`.  The two `_doStart` runs are linearised
here (their interleaving cannot change either one's control flow, which
depends only on `env`).  Returns the final state and the total number of
children spawned. -/
def twoStartsDuringStopWindow (env : StartEnv) (st0 : ManagerState)
    (modelPath : String) (opts : StartOptions) (idA idB hA hB : Nat) :
    ManagerState × Nat :=
  match start_entry st0 modelPath opts with
  | .proceedAfterStop =>
      let stA1 := stopBegin st0
      match start_entry stA1 modelPath opts with
      | .proceedAfterStop =>
          let stClean := stopTail (stopTail stA1)
          let rA := start_register env stClean idA hA modelPath opts
          let rB := start_register env rA.1 idB hB modelPath opts
          (rB.1, rA.2.2.1.length + rB.2.2.1.length)
      | _ => (st0, 0)
  | _ => (st0, 0)

/-! ### Concrete fixtures used by witnesses and counterexamples -/

/-- An environment in which everything succeeds on the CPU variant: no CUDA
binary, a CPU binary, FFmpeg present, every model path exists, every port
free, readiness probe succeeds. -/
def envAll : StartEnv :=
  { cudaBinary := none
    cpuBinary := some "/res/bin/whisper-server-linux-x64-cpu"
    ffmpegPath := some "/usr/bin/ffmpeg"
    modelExists := fun _ => true
    portAvail := fun _ => true
    readyOutcome := .ok
    cudaDetect := false }

/-- Like `envAll` but no readiness probe ever succeeds within the startup
timeout while the child stays alive. -/
def envTimeout : StartEnv := { envAll with readyOutcome := .timeout }

def senv0 : StopEnv := { gracefulExit := true, killError := false }

def optsNone : StartOptions := {}

/-- A successful `start(\"/models/ggml-base.bin\")` against `envAll`. -/
def startOkEv : Event := .startEv envAll senv0 1 1 "/models/ggml-base.bin" optsNone

/-- State after one successful start: Ready on port 8178. -/
def stReady : ManagerState := run initialState [startOkEv]

/-- State after a successful start followed by an unexpected child exit. -/
def stCrashed : ManagerState := run initialState [startOkEv, .closeEv]

/-- State after a successful start followed by one failed health probe. -/
def stDegraded : ManagerState := run initialState [startOkEv, .healthFailEv]

/-- A minimal 12-byte payload carrying the RIFF/WAVE signature. -/
def wavBytes : List Nat :=
  [0x52, 0x49, 0x46, 0x46, 0x00, 0x00, 0x00, 0x00, 0x57, 0x41, 0x56, 0x45]

/-! ## Shared lemmas -/

theorem findPortFrom_ok_iff (avail : Nat → Bool) :
    ∀ (fuel lo p : Nat), findPortFrom avail lo fuel = .ok p ↔
      (lo ≤ p ∧ p < lo + fuel ∧ avail p = true ∧
        ∀ q, q < p → lo ≤ q → avail q = false) := by
  intro fuel
  induction fuel with
  | zero =>
      intro lo p
      constructor
      · intro h; exact absurd h (by simp [findPortFrom])
      · rintro ⟨h1, h2, -, -⟩; omega
  | succ n ih =>
      intro lo p
      simp only [findPortFrom]
      by_cases h : avail lo = true
      · rw [if_pos h]
        constructor
        · intro he
          have hp : lo = p := by simpa using he
          subst hp
          exact ⟨le_refl _, by omega, h, fun q hq1 hq2 => by omega⟩
        · rintro ⟨h1, h2, h3, h4⟩
          have hlp : lo = p := by
            by_contra hne
            exact absurd (h4 lo (lt_of_le_of_ne h1 hne) (le_refl _)) (by simp [h])
          rw [hlp]
      · rw [if_neg h]
        have hl : avail lo = false := by simpa using h
        rw [ih (lo + 1) p]
        constructor
        · rintro ⟨h1, h2, h3, h4⟩
          refine ⟨by omega, by omega, h3, fun q hq1 hq2 => ?_⟩
          rcases Nat.eq_or_lt_of_le hq2 with heq | hlt
          · rw [← heq]; exact hl
          · exact h4 q hq1 (by omega)
        · rintro ⟨h1, h2, h3, h4⟩
          have hne : p ≠ lo := by
            intro he; rw [he] at h3; exact absurd h3 (by simp [hl])
          refine ⟨by omega, by omega, h3, fun q hq1 hq2 => h4 q hq1 (by omega)⟩

theorem findPortFrom_error_iff (avail : Nat → Bool) :
    ∀ (fuel lo : Nat),
      findPortFrom avail lo fuel = .error "No available ports in range 8178-8199" ↔
        ∀ q, q < lo + fuel → lo ≤ q → avail q = false := by
  intro fuel
  induction fuel with
  | zero =>
      intro lo
      simp only [findPortFrom]
      constructor
      · intro _ q h1 h2; omega
      · intro _; trivial
  | succ n ih =>
      intro lo
      simp only [findPortFrom]
      by_cases h : avail lo = true
      · rw [if_pos h]
        constructor
        · intro he; exact Except.noConfusion he
        · intro hall
          exact absurd (hall lo (by omega) (le_refl _)) (by simp [h])
      · rw [if_neg h]
        have hl : avail lo = false := by simpa using h
        rw [ih (lo + 1)]
        constructor
        · intro hall q hq1 hq2
          rcases Nat.eq_or_lt_of_le hq2 with heq | hlt
          · rw [← heq]; exact hl
          · exact hall q (by omega) (by omega)
        · intro hall q hq1 hq2
          exact hall q (by omega) (by omega)

/-! ## Claim C7 -/

/-- C7: `findAvailablePort` scans the fixed inclusive range 8178..8199 in
ascending order (each candidate tested by the transient loopback bind embodied
in `avail`), returns the first bindable port — i.e. it returns `p` exactly when
`p` is in range, available, and every smaller in-range port is unavailable —
and throws the `No available ports` error exactly when the whole range is
unavailable (no retry across other ranges). -/
theorem C7_findAvailablePort_scan (avail : Nat → Bool) :
    (∀ p, findAvailablePort avail = .ok p ↔
        (PORT_RANGE_START ≤ p ∧ p ≤ PORT_RANGE_END ∧ avail p = true ∧
          ∀ q, q < p → PORT_RANGE_START ≤ q → avail q = false)) ∧
    (findAvailablePort avail = .error "No available ports in range 8178-8199" ↔
        ∀ p, p ≤ PORT_RANGE_END → PORT_RANGE_START ≤ p → avail p = false) := by
  constructor
  · intro p
    rw [findAvailablePort, findPortFrom_ok_iff]
    simp only [PORT_RANGE_START, PORT_RANGE_END]
    constructor
    · rintro ⟨h1, h2, h3, h4⟩; exact ⟨h1, by omega, h3, h4⟩
    · rintro ⟨h1, h2, h3, h4⟩; exact ⟨h1, by omega, h3, h4⟩
  · rw [findAvailablePort, findPortFrom_error_iff]
    simp only [PORT_RANGE_START, PORT_RANGE_END]
    constructor
    · intro h q h1 h2; exact h q (by omega) h2
    · intro h q h1 h2; exact h q (by omega) h2

/-- Witness for C7: with ports below 8179 taken and the rest free, the scan
returns 8179, the first available port of the range. -/
theorem C7_findAvailablePort_scan_witness :
    findAvailablePort (fun p => decide (8179 ≤ p)) = .ok 8179 :=
  ((C7_findAvailablePort_scan fun p => decide (8179 ≤ p)).1 8179).mpr
    ⟨by simp [PORT_RANGE_START], by simp [PORT_RANGE_END], by simp, fun q h1 h2 => by
      simp only [PORT_RANGE_START] at h2
      have hq : q = 8178 := by omega
      subst hq; simp⟩

/-! ## Claim C6 -/

/-- C6: a payload of length at least 12 whose bytes 0-3 are `RIFF` and whose
bytes 8-11 are `WAVE` is sent as the native part — filename `audio.wav`,
content type `audio/wav` — regardless of transcoder availability
(`st.canConvert` is arbitrary); a payload failing the sniff is rejected with
the `FFmpeg not found` error before the request is built (hence before any
network call) whenever `canConvert` is false. -/
theorem C6_wav_sniff_routing (st : ManagerState) (audio : List Nat)
    (opts : TranscribeOptions) (hready : st.ready = true)
    (hproc : st.process.isSome = true) :
    (12 ≤ audio.length → audio.getD 0 0 = 0x52 → audio.getD 1 0 = 0x49 →
      audio.getD 2 0 = 0x46 → audio.getD 3 0 = 0x46 → audio.getD 8 0 = 0x57 →
      audio.getD 9 0 = 0x41 → audio.getD 10 0 = 0x56 → audio.getD 11 0 = 0x45 →
      ∃ req, transcribeRequest st audio opts = .ok req ∧
        req.fileName = "audio.wav" ∧ req.contentType = "audio/wav" ∧
        req.audio = audio) ∧
    (isWavBuffer audio = false → st.canConvert = false →
      transcribeRequest st audio opts =
        .error "FFmpeg not found - whisper-server requires WAV input") := by
  constructor
  · intro hlen h0 h1 h2 h3 h8 h9 h10 h11
    have hwav : isWavBuffer audio = true := by
      unfold isWavBuffer
      rw [h0, h1, h2, h3, h8, h9, h10, h11]
      simp [hlen]
    simp only [transcribeRequest, hready, hproc, hwav, Bool.not_true, Bool.or_self,
      Bool.false_and, Bool.false_eq_true, if_false, if_true]
    exact ⟨_, rfl, rfl, rfl, rfl⟩
  · intro hnw hcc
    simp [transcribeRequest, hready, hproc, hnw, hcc]

/-- Witness for C6, both branches: a Ready manager accepts the 12-byte
RIFF/WAVE payload as `audio.wav`, and with the transcoder absent rejects a
non-WAV payload. -/
theorem C6_wav_sniff_routing_witness :
    (∃ req, transcribeRequest stReady wavBytes {} = .ok req ∧
      req.fileName = "audio.wav" ∧ req.contentType = "audio/wav" ∧
      req.audio = wavBytes) ∧
    transcribeRequest { stReady with canConvert := false } [0, 1, 2] {} =
      .error "FFmpeg not found - whisper-server requires WAV input" :=
  ⟨(C6_wav_sniff_routing stReady wavBytes {} rfl rfl).1 (by decide) rfl rfl rfl rfl
      rfl rfl rfl rfl,
    (C6_wav_sniff_routing { stReady with canConvert := false } [0, 1, 2] {} rfl rfl).2
      rfl rfl⟩

/-! ## Claim C4 -/

/-- The running gate of `transcribe` (lines 456-458): it throws
`whisper-server is not running` exactly when `ready` is false or no process is
owned; the two later outcomes (the FFmpeg rejection and the built request)
carry different values. -/
theorem transcribeRequest_gate (st : ManagerState) (audio : List Nat)
    (opts : TranscribeOptions) :
    transcribeRequest st audio opts = .error "whisper-server is not running" ↔
      ¬(st.ready = true ∧ st.process.isSome = true) := by
  cases hr : st.ready with
  | false => simp [transcribeRequest, hr]
  | true =>
    cases hp : st.process.isSome with
    | false => simp [transcribeRequest, hp]
    | true =>
      constructor
      · intro h
        exfalso
        unfold transcribeRequest at h
        rw [hr, hp] at h
        simp only [Bool.not_true, Bool.or_self, Bool.false_eq_true, if_false] at h
        split at h
        · rw [Except.error.injEq] at h
          exact absurd h (by decide)
        · exact Except.noConfusion h
      · intro hcon
        exact absurd ⟨rfl, rfl⟩ hcon

/-- C4 (amended): `transcribe` fails with `ServerNotRunning` exactly when the
`ready` flag is unset or no process is owned — i.e. it proceeds to build the
request only in the spec's `Ready` state.  In particular, in the `Degraded`
state (owned process whose last health probe failed, so `ready` is false) it
also fails with `ServerNotRunning`, contrary to the claim's "Ready or
Degraded". -/
theorem C4_transcribe_gate_amended (st : ManagerState) (audio : List Nat)
    (opts : TranscribeOptions) :
    (transcribeRequest st audio opts = .error "whisper-server is not running" ↔
      ¬(st.ready = true ∧ st.process.isSome = true)) ∧
    (specState st = .Degraded →
      transcribeRequest st audio opts = .error "whisper-server is not running") := by
  refine ⟨transcribeRequest_gate st audio opts, fun hdeg => ?_⟩
  rw [transcribeRequest_gate]
  rintro ⟨hr, hp⟩
  simp [specState, hr, hp] at hdeg
  split at hdeg
  · exact SpecState.noConfusion hdeg
  · exact SpecState.noConfusion hdeg

/-- Witness for C4 (amended), at the reachable Degraded state: the gate fires. -/
theorem C4_transcribe_gate_amended_witness :
    transcribeRequest stDegraded wavBytes {} =
      .error "whisper-server is not running" :=
  (C4_transcribe_gate_amended stDegraded wavBytes {}).2 rfl

/-- Counterexample for C4 as stated: after a successful start and one failed
health probe the manager is in the `Degraded` state with an owned process,
yet `transcribe` does not proceed — it fails with `ServerNotRunning`
(the code requires `this.ready`, which a failed probe clears). -/
theorem C4_degraded_rejected_counterexample :
    specState stDegraded = SpecState.Degraded ∧
    stDegraded.process.isSome = true ∧
    transcribeRequest stDegraded wavBytes {} =
      .error "whisper-server is not running" :=
  ⟨rfl, rfl, rfl⟩

/-! ## Claim C2 -/

/-- C2 (amended): `stop` never propagates an error, and when a process is
owned at entry it resets `process`, `ready`, `port` and `modelPath` on every
termination path (the `StopEnv` is arbitrary: graceful close, forced kill, or
a swallowed signalling error), after which `getStatus` reports not running
with null port and model.  When no process is owned, `stop` only clears the
`ready` flag and the health timer: `getStatus` still reports not running, but
`port` and `modelPath` keep their previous values. -/
theorem C2_stop_reset_amended (senv : StopEnv) (env : StartEnv) (st : ManagerState) :
    (stop senv st).1 = .ok () ∧
    (st.process.isSome = true →
      (stop senv st).2 = { st with process := none, ready := false, port := none,
                                   modelPath := none, healthCheckInterval := false } ∧
      (getStatus env (stop senv st).2).running = false ∧
      (getStatus env (stop senv st).2).port = none ∧
      (getStatus env (stop senv st).2).modelPath = none) ∧
    (st.process = none →
      (stop senv st).2 = { st with ready := false, healthCheckInterval := false } ∧
      (getStatus env (stop senv st).2).running = false ∧
      (getStatus env (stop senv st).2).port = st.port ∧
      (getStatus env (stop senv st).2).modelPath = st.modelPath) := by
  rcases hp : st.process with _ | h
  · refine ⟨?_, ?_, ?_⟩ <;> simp [stop, stopBegin, stopTail, getStatus, hp]
  · refine ⟨?_, ?_, ?_⟩ <;> simp [stop, stopBegin, stopTail, getStatus, hp]

/-- Witness for C2 (amended): stopping the Ready fixture resets port and model
and reports not running. -/
theorem C2_stop_reset_amended_witness :
    (stop senv0 stReady).2.port = none ∧
    (getStatus envAll (stop senv0 stReady).2).running = false ∧
    (getStatus envAll (stop senv0 stReady).2).port = none ∧
    (getStatus envAll (stop senv0 stReady).2).modelPath = none :=
  have h := (C2_stop_reset_amended senv0 envAll stReady).2.1 rfl
  ⟨by rw [h.1], h.2.1, h.2.2.1, h.2.2.2⟩

/-- Counterexample for C2 as stated: after a crash (child exit observed while
Ready) the manager owns no process but still holds `port` and `modelPath`;
`stop()` then takes the early-return branch (lines 587-590) and does not
reset them, so `getStatus()` right after `stop()` reports a non-null port and
model — the claim's "for every initial supervisor state — process owned or
not ... null port and null model" fails. -/
theorem C2_stop_counterexample :
    stCrashed.process = none ∧
    (stop senv0 stCrashed).1 = .ok () ∧
    (getStatus envAll (stop senv0 stCrashed).2).running = false ∧
    (getStatus envAll (stop senv0 stCrashed).2).port = some 8178 ∧
    (getStatus envAll (stop senv0 stCrashed).2).modelPath =
      some "/models/ggml-base.bin" :=
  ⟨rfl, rfl, rfl, rfl, rfl⟩

/-! ## Claim C8 -/

/-- C8: a `start` call finding the manager Ready (no start in flight,
`ready` set) with the identical model path and with the effective acceleration
preference equal to the request's returns immediately as a no-op: nothing is
stopped or spawned, no port scan happens, and the state is unchanged. -/
theorem C8_start_noop_idempotent (env : StartEnv) (senv : StopEnv)
    (st : ManagerState) (opId handle : Nat) (m : String) (o : StartOptions)
    (hpromise : st.startupPromise = none)
    (hready : st.ready = true)
    (hmodel : st.modelPath = some m)
    (hcuda : st.usingCuda = o.useCuda.getD false) :
    (start env senv st opId handle m o).call = .noop ∧
    (start env senv st opId handle m o).state = st ∧
    (start env senv st opId handle m o).spawns = [] ∧
    (start env senv st opId handle m o).portScans = 0 ∧
    (start env senv st opId handle m o).stops = 0 := by
  have he : start_entry st m o = .noop := by
    unfold start_entry
    rw [hpromise]
    simp [hready, hmodel, hcuda]
  simp [start, he]

/-- Witness for C8: repeating the successful start verbatim is a no-op. -/
theorem C8_start_noop_idempotent_witness :
    (start envAll senv0 stReady 7 8 "/models/ggml-base.bin" optsNone).call = .noop ∧
    (start envAll senv0 stReady 7 8 "/models/ggml-base.bin" optsNone).state = stReady :=
  have h := C8_start_noop_idempotent envAll senv0 stReady 7 8
    "/models/ggml-base.bin" optsNone rfl rfl rfl rfl
  ⟨h.1, h.2.1⟩

/-! ## Claim C5 -/

/-- C5: a `start` requesting CUDA when no CUDA binary resolves but a CPU
binary does succeeds on the CPU binary, with `usingCuda` recorded false —
so `getStatus().usingCuda` afterward reads `false`, differing from the
requested `true`, which is how the fallback is observable to the caller. -/
theorem C5_cuda_fallback_status (env : StartEnv) (senv : StopEnv)
    (st : ManagerState) (opId handle : Nat) (m b : String) (o : StartOptions)
    (hreq : o.useCuda = some true)
    (hnocuda : env.cudaBinary = none)
    (hcpu : env.cpuBinary = some b)
    (hmodel : env.modelExists m = true)
    (hport : ∃ p, findAvailablePort env.portAvail = .ok p)
    (hok : env.readyOutcome = .ok)
    (hpromise : st.startupPromise = none)
    (hready : st.ready = false)
    (hproc : st.process = none) :
    (start env senv st opId handle m o).call = .ran (.ok ()) ∧
    (start env senv st opId handle m o).state.ready = true ∧
    (start env senv st opId handle m o).state.usingCuda = false ∧
    (getStatus env (start env senv st opId handle m o).state).usingCuda = false ∧
    List.map SpawnRecord.binary (start env senv st opId handle m o).spawns = [b] := by
  obtain ⟨p, hp⟩ := hport
  have he : start_entry st m o = .proceedDirect := by
    unfold start_entry
    rw [hpromise]
    simp [hready, hproc]
  simp [start, he, start_register, doStart, resolveBinary, hreq, hnocuda, hcpu,
    hmodel, hp, hok, getStatus]

/-- Witness for C5: a concrete CUDA request in a CUDA-less environment starts
on the CPU binary with `usingCuda = false` in status. -/
theorem C5_cuda_fallback_status_witness :
    (start envAll senv0 initialState 4 5 "/models/ggml-base.bin"
        { useCuda := some true }).call = .ran (.ok ()) ∧
    (getStatus envAll (start envAll senv0 initialState 4 5 "/models/ggml-base.bin"
        { useCuda := some true }).state).usingCuda = false :=
  have h := C5_cuda_fallback_status envAll senv0 initialState 4 5
    "/models/ggml-base.bin" "/res/bin/whisper-server-linux-x64-cpu"
    { useCuda := some true } rfl rfl rfl rfl ⟨8178, rfl⟩ rfl rfl rfl rfl
  ⟨h.1, h.2.2.2.1⟩

/-! ## Claim C3 -/

/-- A `start` call that finds the manager with no start in flight, `ready`
false and an owned process performs exactly one `stop()` before proceeding
with its own `_doStart` (lines 262-264). -/
theorem start_after_owned (env : StartEnv) (senv : StopEnv) (st : ManagerState)
    (opId handle : Nat) (m : String) (o : StartOptions)
    (h1 : st.startupPromise = none) (h2 : st.ready = false)
    (h3 : st.process.isSome = true) :
    (start env senv st opId handle m o).stops = 1 ∧
    ∃ res, (start env senv st opId handle m o).call = .ran res := by
  have he : start_entry st m o = .proceedAfterStop := by
    unfold start_entry
    rw [h1]
    simp [h2, h3]
  constructor
  · simp [start, he]
  · exact ⟨(start_register env (stop senv st).2 opId handle m o).2.1,
      by simp [start, he]⟩

/-- C3 (amended): when no readiness probe succeeds within the startup timeout
and the child has not exited, `start` fails with the startup-timeout error —
but the child process remains owned by the supervisor (`waitForReady` throws
without killing or clearing `this.process`).  A subsequent `start` still
proceeds cleanly because it first stops the leftover process. -/
theorem C3_startup_timeout_amended (env : StartEnv) (senv : StopEnv)
    (st : ManagerState) (opId handle : Nat) (m : String) (o : StartOptions)
    (htimeout : env.readyOutcome = .timeout)
    (hpromise : st.startupPromise = none)
    (hready : st.ready = false)
    (hproc : st.process = none)
    (hbin : (resolveBinary env (o.useCuda.getD false)).1.isSome = true)
    (hmodel : env.modelExists m = true)
    (hport : ∃ p, findAvailablePort env.portAvail = .ok p) :
    (start env senv st opId handle m o).call =
      .ran (.error "whisper-server failed to start within 30000ms") ∧
    (start env senv st opId handle m o).state.process = some handle ∧
    (start env senv st opId handle m o).state.ready = false ∧
    (start env senv st opId handle m o).state.startupPromise = none ∧
    ∀ env2 senv2 opId2 handle2 m2 o2,
      (start env2 senv2 (start env senv st opId handle m o).state
          opId2 handle2 m2 o2).stops = 1 ∧
      ∃ res2, (start env2 senv2 (start env senv st opId handle m o).state
          opId2 handle2 m2 o2).call = .ran res2 := by
  obtain ⟨p, hp⟩ := hport
  obtain ⟨b, hb⟩ := Option.isSome_iff_exists.mp hbin
  have he : start_entry st m o = .proceedDirect := by
    unfold start_entry
    rw [hpromise]
    simp [hready, hproc]
  have key : (start env senv st opId handle m o).call =
      .ran (.error "whisper-server failed to start within 30000ms") ∧
      (start env senv st opId handle m o).state.process = some handle ∧
      (start env senv st opId handle m o).state.ready = false ∧
      (start env senv st opId handle m o).state.startupPromise = none := by
    simp [start, he, start_register, doStart, hb, hmodel, hp, htimeout, hready]
  refine ⟨key.1, key.2.1, key.2.2.1, key.2.2.2, fun env2 senv2 opId2 handle2 m2 o2 => ?_⟩
  exact start_after_owned env2 senv2 _ opId2 handle2 m2 o2 key.2.2.2 key.2.2.1
    (by rw [key.2.1]; rfl)

/-- Witness for C3 (amended): the concrete timeout environment leaves the
child owned and the next start stops it. -/
theorem C3_startup_timeout_amended_witness :
    (start envTimeout senv0 initialState 1 1 "/models/ggml-base.bin"
        optsNone).state.process = some 1 ∧
    (start envAll senv0 (start envTimeout senv0 initialState 1 1
        "/models/ggml-base.bin" optsNone).state 2 2 "/models/ggml-base.bin"
        optsNone).stops = 1 :=
  have h := C3_startup_timeout_amended envTimeout senv0 initialState 1 1
    "/models/ggml-base.bin" optsNone rfl rfl rfl rfl rfl rfl ⟨8178, rfl⟩
  ⟨h.2.1, (h.2.2.2.2 envAll senv0 2 2 "/models/ggml-base.bin" optsNone).1⟩

/-- Counterexample for C3 as stated: with every readiness probe failing for
the whole startup timeout (child alive throughout), `start` fails — but a
child process IS left owned by the supervisor: nothing in `waitForReady` or
`_doStart` kills or clears `this.process` on the timeout path. -/
theorem C3_timeout_counterexample :
    (start envTimeout senv0 initialState 1 1 "/models/ggml-base.bin"
        optsNone).call =
      .ran (.error "whisper-server failed to start within 30000ms") ∧
    (start envTimeout senv0 initialState 1 1 "/models/ggml-base.bin"
        optsNone).state.process = some 1 :=
  ⟨rfl, rfl⟩

/-! ## Claim C9 -/

/-- The half of the claimed pairing invariant that does hold: an owned process
implies an allocated port. -/
def ProcPortInv (st : ManagerState) : Prop :=
  st.process.isSome = true → st.port.isSome = true

theorem stop_process_none (senv : StopEnv) (st : ManagerState) :
    (stop senv st).2.process = none := by
  unfold stop stopBegin stopTail
  rcases hp : st.process with _ | h <;> simp [hp]

theorem doStart_state_inv (env : StartEnv) (st : ManagerState) (handle : Nat)
    (m : String) (o : StartOptions) (hp : st.process = none) :
    ProcPortInv (doStart env st handle m o).state := by
  unfold ProcPortInv
  cases hrb : (resolveBinary env (o.useCuda.getD false)).1 with
  | none => simp [doStart, hrb, hp]
  | some sb =>
    cases hme : env.modelExists m with
    | false => simp [doStart, hrb, hme, hp]
    | true =>
      cases hfp : findAvailablePort env.portAvail with
      | error e => simp [doStart, hrb, hme, hfp, hp]
      | ok p =>
        cases hro : env.readyOutcome with
        | ok => simp [doStart, hrb, hme, hfp, hro]
        | died stderr exitCode => simp [doStart, hrb, hme, hfp, hro, hp]
        | timeout => simp [doStart, hrb, hme, hfp, hro]

theorem start_entry_direct_process (st : ManagerState) (m : String)
    (o : StartOptions) (he : start_entry st m o = .proceedDirect) :
    st.process = none := by
  unfold start_entry at he
  rcases hsp : st.startupPromise with _ | p
  · simp only [hsp] at he
    split at he
    · exact EntryDecision.noConfusion he
    · split at he
      · exact EntryDecision.noConfusion he
      · next h =>
          cases hp2 : st.process with
          | none => rfl
          | some v => rw [hp2] at h; exact absurd rfl h
  · simp only [hsp] at he
    exact EntryDecision.noConfusion he

theorem start_state_inv (env : StartEnv) (senv : StopEnv) (st : ManagerState)
    (opId handle : Nat) (m : String) (o : StartOptions) (h : ProcPortInv st) :
    ProcPortInv (start env senv st opId handle m o).state := by
  cases he : start_entry st m o with
  | joined p => simpa [start, he] using h
  | noop => simpa [start, he] using h
  | proceedDirect =>
      have hp := start_entry_direct_process st m o he
      have hd := doStart_state_inv env { st with startupPromise := some opId }
        handle m o hp
      unfold ProcPortInv at hd ⊢
      simp only [start, he, start_register]
      simpa using hd
  | proceedAfterStop =>
      have hp : (stop senv st).2.process = none := stop_process_none senv st
      have hd := doStart_state_inv env
        { (stop senv st).2 with startupPromise := some opId } handle m o hp
      unfold ProcPortInv at hd ⊢
      simp only [start, he, start_register]
      simpa using hd

theorem step_state_inv (st : ManagerState) (e : Event) (h : ProcPortInv st) :
    ProcPortInv (step st e) := by
  cases e with
  | startEv env senv opId handle m o =>
      exact start_state_inv env senv st opId handle m o h
  | stopEv senv =>
      intro hx
      have hn := stop_process_none senv st
      simp only [step] at hx
      rw [hn] at hx
      exact absurd hx (by simp)
  | closeEv =>
      unfold ProcPortInv
      simp only [step]
      split
      · simp
      · exact h
  | healthFailEv =>
      unfold ProcPortInv
      simp only [step]
      split
      · split
        · exact h
        · exact h
      · exact h
  | healthOkEv =>
      unfold ProcPortInv
      simp only [step]
      split
      · exact h
      · exact h

theorem run_state_inv (evs : List Event) :
    ∀ st, ProcPortInv st → ProcPortInv (run st evs) := by
  induction evs with
  | nil => intro st h; exact h
  | cons e es ih => intro st h; exact ih (step st e) (step_state_inv st e h)

/-- C9 (amended): in every state reachable from the initial state through the
supervisor's operations and callbacks, an owned `childHandle` implies an
allocated `port`.  (The claimed converse fails: see the counterexample —
after an unexpected child exit `port` stays set with `childHandle` cleared.) -/
theorem C9_handle_implies_port (evs : List Event) :
    (run initialState evs).process.isSome = true →
    (run initialState evs).port.isSome = true :=
  run_state_inv evs initialState (fun hx => absurd hx (by simp [initialState]))

/-- Witness for C9 (amended): after a successful start the port is allocated. -/
theorem C9_handle_implies_port_witness :
    (run initialState [startOkEv]).port.isSome = true :=
  C9_handle_implies_port [startOkEv] rfl

/-- Counterexample for C9 as stated: after a successful start followed by the
child's unexpected exit (the `close` handler, lines 358-364, clears
`this.process` but not `this.port`), the reachable state has `port` set and
`childHandle` unset — they are not "both set or both unset". -/
theorem C9_partial_population_counterexample :
    ¬ ∀ evs : List Event,
        ((run initialState evs).port.isSome = true ↔
          (run initialState evs).process.isSome = true) := by
  intro hall
  have h := (hall [startOkEv, Event.closeEv]).mp rfl
  have h2 : (run initialState [startOkEv, Event.closeEv]).process.isSome = false := rfl
  rw [h] at h2
  exact Bool.noConfusion h2

/-! ## Claim C10 -/

/-- C10: the language value `"auto"` behaves exactly like an absent language
at both interfaces — the spawn argument vector, the whole `start` call, and
the built `transcribe` request are identical for `language = some "auto"` and
`language = none` (lines 323-325 and 501-507 both test
`language && language !== "auto"`). -/
theorem C10_auto_language_like_absent (env : StartEnv) (senv : StopEnv)
    (st : ManagerState) (opId handle : Nat) (m : String) (u : Option Bool)
    (t : Option Nat) (p : Nat) (ff : Bool) (st2 : ManagerState)
    (audio : List Nat) (pr : Option String) :
    buildArgs m p ff { useCuda := u, threads := t, language := some "auto" } =
      buildArgs m p ff { useCuda := u, threads := t, language := none } ∧
    start env senv st opId handle m
        { useCuda := u, threads := t, language := some "auto" } =
      start env senv st opId handle m
        { useCuda := u, threads := t, language := none } ∧
    transcribeRequest st2 audio { language := some "auto", initialPrompt := pr } =
      transcribeRequest st2 audio { language := none, initialPrompt := pr } :=
  ⟨rfl, rfl, rfl⟩

/-! ## Claim C1 -/

/-- C1 fails on the code: from a Ready state holding a different model, two
`start` calls with identical arguments, the second issued while the first is
suspended in `await this.stop()` (line 263) — i.e. before the first assigns
`this.startupPromise` at line 266 — both pass the line-255 single-flight
check and both run `_doStart`: two child processes are spawned, not one, and
the second caller never awaits the first caller's operation. -/
theorem C1_double_spawn_in_stop_window :
    stReady.startupPromise = none ∧
    stReady.ready = true ∧
    stReady.modelPath = some "/models/ggml-base.bin" ∧
    (twoStartsDuringStopWindow envAll stReady "/models/ggml-small.bin" optsNone
        10 11 2 3).2 = 2 :=
  ⟨rfl, rfl, rfl, rfl⟩

end WhisperServer
